import Mathlib

/-
Verification development for the edviron payment-tracking backend.

The definitions below are a shallow embedding of the reconciliation core:
  - src/src/models/OrderStatus.js        (status ledger, upsertStatus)
  - src/src/config/env.js                (payment controller checkPaymentStatus poll path)
  - src/src/controllers/transactions.controller.js (webhook controller:
      processWebhook, parseWebhookPayload, processWebhookData)
  - src/unnamed/part_001                 (retryWithBackoff)
  - src/src/services/paymentService.js   (createCollectRequest)
  - src/unnamed/part_005                 (Order model, updateStatus)
  - src/unnamed/part_007                 (WebhookLog model, createLog)

JavaScript conventions modelled explicitly:
  - nullable / possibly-undefined values are Option;
  - JS truthiness tests on strings and numbers (empty string and 0 are
    falsy) are the functions tS / tI / tN below;
  - mongoose save() validation (required fields, enum membership,
    minimum values) is the function validStatusData, and a failing save
    is an Except.error;
  - database collections are lists, ObjectIds are Nat counters;
  - timestamps are Nat (epoch milliseconds).
-/

deriving instance DecidableEq for Except

namespace Edviron

/-- Truthiness of a nullable JS string: undefined, null and "" are falsy. -/
def tS : Option String → Bool
  | some s => !(s == "")
  | none => false

/-- Truthiness of a nullable JS number: undefined, null and 0 are falsy. -/
def tI : Option Int → Bool
  | some n => !(n == 0)
  | none => false

/-- Truthiness of a nullable JS timestamp: undefined, null and 0 are falsy. -/
def tN : Option Nat → Bool
  | some n => !(n == 0)
  | none => false

/-- The closed status enumeration of the OrderStatus schema
(src/src/models/OrderStatus.js, field status). -/
def statusEnum : List String :=
  ["created", "pending", "completed", "failed", "cancelled", "refunded"]

/-- The terminal statuses as the spec defines them (section 3):
completed, failed, cancelled and refunded. -/
def isTerminalSpec : Option String → Bool
  | some s => ["completed", "failed", "cancelled", "refunded"].contains s
  | none => false

/-- The webhook payload shape normalized by parseWebhookPayload
(transactions.controller.js lines 803-888).  This record mirrors the
JS object literal parsed initialized there. -/
structure Parsed where
  custom_order_id : Option String
  collect_request_id : Option String
  transaction_id : Option String
  order_amount : Option Int
  transaction_amount : Option Int
  payment_mode : Option String
  payment_details : Option String
  bank_reference : Option String
  payment_message : Option String
  status : Option String
  error_message : Option String
  payment_time : Option Nat
  gateway : String
deriving DecidableEq

/-- The statusData payload handed to OrderStatus.upsertStatus.  Field for
field the object literals built in transactions.controller.js (lines
62-75 and 920-933); vendor_data keeps the parsed snapshot. -/
structure StatusData where
  order_amount : Option Int
  transaction_amount : Option Int
  payment_mode : Option String
  payment_details : Option String
  bank_reference : Option String
  payment_message : Option String
  status : Option String
  error_message : Option String
  payment_time : Option Nat
  transaction_id : Option String
  gateway : Option String
  vendor_data : Option Parsed
deriving DecidableEq

/-- A persisted OrderStatus document: _id, the Order back-reference
collect_id, the mutable payload fields, and createdAt. -/
structure OrderStatus where
  id : Nat
  collect_id : Nat
  data : StatusData
  createdAt : Nat
deriving DecidableEq

/-- The orderstatuses collection together with the ObjectId counter. -/
structure Ledger where
  entries : List OrderStatus
  nextId : Nat
deriving DecidableEq

def emptyLedger : Ledger := { entries := [], nextId := 0 }

/-- Mongoose validation run by save() on an OrderStatus document:
status is required and must be in the enum, order_amount is required
with min 0, transaction_amount has min 0 when present
(src/src/models/OrderStatus.js lines 10-39). -/
def validStatusData (sd : StatusData) : Bool :=
  (match sd.status with
   | some s => statusEnum.contains s
   | none => false)
  && (match sd.order_amount with
      | some a => decide ((0 : Int) ≤ a)
      | none => false)
  && (match sd.transaction_amount with
      | some a => decide ((0 : Int) ≤ a)
      | none => true)

/-- Replace the first element satisfying p by its image under f, the way
a mongoose document save() writes back exactly the found document. -/
def updateFirst {α : Type} (p : α → Bool) (f : α → α) : List α → List α
  | [] => []
  | x :: xs => if p x then f x :: xs else x :: updateFirst p f xs

/-- The findOne filter of upsertStatus: same order and same
transaction_id (src/src/models/OrderStatus.js lines 95-98). -/
def matchesTxn (orderId : Nat) (t : String) (e : OrderStatus) : Bool :=
  e.collect_id == orderId && e.data.transaction_id == some t

/-- Schema defaults mongoose applies when a new OrderStatus document is
constructed from data that does not supply the field: status defaults
to created and gateway to edviron (src/src/models/OrderStatus.js lines
34-39 and 53-56).  Defaults apply at construction only, never on an
Object.assign update of an existing document. -/
def applyStatusDefaults (sd : StatusData) : StatusData :=
  { sd with
      status := match sd.status with
                | some s => some s
                | none => some "created",
      gateway := match sd.gateway with
                 | some g => some g
                 | none => some "edviron" }

/-- Construction and save of a fresh OrderStatus document
(src/src/models/OrderStatus.js lines 107-113): the constructor applies
the schema defaults, then save() validates the constructed document. -/
def saveNewStatus (l : Ledger) (now : Nat) (orderId : Nat) (sd : StatusData) :
    Except String Ledger :=
  if validStatusData (applyStatusDefaults sd) then
    .ok { entries := l.entries ++
            [{ id := l.nextId, collect_id := orderId, data := applyStatusDefaults sd, createdAt := now }],
          nextId := l.nextId + 1 }
  else
    .error "OrderStatus validation failed"

/-- OrderStatus.upsertStatus (src/src/models/OrderStatus.js lines
92-114): line 94 guards the lookup with JS truthiness
(if (statusData.transaction_id)), under which the empty string is
falsy.  Only for a truthy (present and nonempty) transaction_id with an
existing (orderId, transaction_id) entry does Object.assign overwrite
that entry's payload fields; otherwise a new document is created. -/
def upsertStatus (l : Ledger) (now : Nat) (orderId : Nat) (sd : StatusData) :
    Except String Ledger :=
  if tS sd.transaction_id then
    let t := sd.transaction_id.getD ""
    match l.entries.find? (matchesTxn orderId t) with
    | some _ =>
      if validStatusData sd then
        .ok { l with entries := updateFirst (matchesTxn orderId t) (fun e => { e with data := sd }) l.entries }
      else
        .error "OrderStatus validation failed"
    | none => saveNewStatus l now orderId sd
  else
    saveNewStatus l now orderId sd

/-- The raw-to-enum status mapping of the payment controller poll path
(checkPaymentStatus, src/src/config/env.js lines 271-279): vendor
SUCCESS becomes completed, FAILED becomes failed, anything else is left
as the default pending. -/
def mapApiStatus (raw : String) : String :=
  if raw == "SUCCESS" then "completed"
  else if raw == "FAILED" then "failed"
  else "pending"

/-- The in-place update the poll path performs on the existing
OrderStatus document (checkPaymentStatus, src/src/config/env.js lines
271-289): status is the mapped enum value, transaction_amount falls
back to order_amount, payment_message echoes the raw string, and
payment_time is set on completion. -/
def applyPollStatus (e : OrderStatus) (rawStatus : String) (amount : Option Int)
    (now : Nat) : OrderStatus :=
  let dbStatus := mapApiStatus rawStatus
  { e with data := { e.data with
      status := some dbStatus,
      transaction_amount := if tI amount then amount else e.data.order_amount,
      payment_message := some ("Payment " ++ rawStatus),
      payment_time := if dbStatus == "completed" then some now else e.data.payment_time } }

/-- The nested order_info block a vendor webhook may carry. -/
structure OrderInfo where
  order_id : Option String
  custom_order_id : Option String
deriving DecidableEq

/-- The nested payment_info block a vendor webhook may carry. -/
structure PaymentInfo where
  order_amount : Option Int
  transaction_amount : Option Int
  amount : Option Int
  payment_mode : Option String
  payment_details : Option String
  bank_reference : Option String
  payment_message : Option String
  message : Option String
  status : Option String
  error_message : Option String
  gateway : Option String
  payment_time : Option Nat
  transaction_id : Option String
deriving DecidableEq

/-- An inbound webhook body: either the nested order_info/payment_info
shape or the flat shape with the same fields at the root. -/
structure Payload where
  order_info : Option OrderInfo
  payment_info : Option PaymentInfo
  custom_order_id : Option String
  collect_request_id : Option String
  transaction_id : Option String
  order_amount : Option Int
  transaction_amount : Option Int
  amount : Option Int
  payment_mode : Option String
  payment_details : Option String
  bank_reference : Option String
  payment_message : Option String
  message : Option String
  status : Option String
  error_message : Option String
  gateway : Option String
  payment_time : Option Nat
deriving DecidableEq

/-- JS String.prototype.split with a one-character separator, as used on
order_info.order_id.  Splitting the empty string yields [""], exactly as
in JS. -/
def jsSplitSlash (s : String) : List String :=
  (List.splitOn '/' s.toList).map (fun l => String.mk l)

/-- The parsed object before any extraction: every field null and
gateway defaulted (transactions.controller.js lines 804-818). -/
def emptyParsed : Parsed :=
  { custom_order_id := none, collect_request_id := none, transaction_id := none,
    order_amount := none, transaction_amount := none, payment_mode := none,
    payment_details := none, bank_reference := none, payment_message := none,
    status := none, error_message := none, payment_time := none,
    gateway := "edviron" }

/-- parseWebhookPayload (transactions.controller.js lines 803-888):
extract the nested order_info block (splitting a composite order_id on
the slash), then the nested payment_info block, fall back to the flat
shape when both blocks are absent, and default payment_time to the
ingestion time. -/
def parseWebhookPayload (payload : Payload) (now : Nat) : Parsed :=
  let p0 := emptyParsed
  let p1 :=
    match payload.order_info with
    | some oi =>
      let pa := { p0 with custom_order_id := oi.custom_order_id }
      match oi.order_id with
      | some oid =>
        if tS (some oid) then
          match jsSplitSlash oid with
          | [a, b] => { pa with collect_request_id := some a, transaction_id := some b }
          | _ => { pa with collect_request_id := some oid }
        else pa
      | none => pa
    | none => p0
  let p2 :=
    match payload.payment_info with
    | some pi =>
      { p1 with
        order_amount := pi.order_amount,
        transaction_amount := if tI pi.transaction_amount then pi.transaction_amount else pi.amount,
        payment_mode := pi.payment_mode,
        payment_details := pi.payment_details,
        bank_reference := pi.bank_reference,
        payment_message := if tS pi.payment_message then pi.payment_message else pi.message,
        status := pi.status,
        error_message := pi.error_message,
        gateway := if tS pi.gateway then pi.gateway.getD "edviron" else "edviron",
        payment_time := if tN pi.payment_time then pi.payment_time else p1.payment_time,
        transaction_id := if tS pi.transaction_id then pi.transaction_id else p1.transaction_id }
    | none => p1
  let p3 :=
    if payload.order_info.isNone && payload.payment_info.isNone then
      { p2 with
        custom_order_id := payload.custom_order_id,
        collect_request_id := payload.collect_request_id,
        transaction_id := payload.transaction_id,
        order_amount := payload.order_amount,
        transaction_amount := if tI payload.transaction_amount then payload.transaction_amount else payload.amount,
        payment_mode := payload.payment_mode,
        payment_details := payload.payment_details,
        bank_reference := payload.bank_reference,
        payment_message := if tS payload.payment_message then payload.payment_message else payload.message,
        status := payload.status,
        error_message := payload.error_message,
        gateway := if tS payload.gateway then payload.gateway.getD "edviron" else "edviron",
        payment_time := if tN payload.payment_time then payload.payment_time else p2.payment_time }
    else p2
  if tN p3.payment_time then p3 else { p3 with payment_time := some now }

/-- A persisted Order document (src/unnamed/part_005, string-keyed
variant): identity, external linkage and the cached status field. -/
structure Order where
  id : Nat
  school_id : String
  custom_order_id : String
  collect_request_id : Option String
  amount : Int
  status : String
deriving DecidableEq

/-- Order.updateStatus (src/unnamed/part_005 lines 108-114): set the
cached status field and save. -/
def Order.updateStatus (s : String) (o : Order) : Order :=
  { o with status := s }

/-- The fields of a webhook delivery record; _id mirrors the _id
property of the plain JS webhookLogData object, which is only ever set
by mongoose on a document, never on the plain object. -/
structure WebhookLogData where
  _id : Option Nat
  raw_payload : Payload
  received_at : Nat
  parsed : Option Parsed
  processing_status : String
  processing_message : Option String
  order_id : Option Nat
  custom_order_id : Option String
  collect_request_id : Option String
  transaction_id : Option String
  retries : Nat
deriving DecidableEq

/-- A persisted WebhookLog document: its ObjectId plus the data fields. -/
structure WebhookLog where
  id : Nat
  data : WebhookLogData
deriving DecidableEq

/-- The durable store: orders, the status ledger, webhook logs and the
webhook log ObjectId counter. -/
structure DB where
  orders : List Order
  ledger : Ledger
  webhookLogs : List WebhookLog
  nextLogId : Nat
deriving DecidableEq

/-- WebhookLog.createLog (src/unnamed/part_007 lines 93-96): construct a
document from the plain data object and save it.  The returned document
has an _id; the plain input object is not mutated. -/
def createLog (logData : WebhookLogData) (db : DB) : WebhookLog × DB :=
  let w : WebhookLog := { id := db.nextLogId, data := logData }
  (w, { db with webhookLogs := db.webhookLogs ++ [w], nextLogId := db.nextLogId + 1 })

/-- WebhookLog markAsProcessed (src/unnamed/part_007 lines 118-125). -/
def markProcessed (msg : String) (w : WebhookLog) : WebhookLog :=
  { w with data := { w.data with processing_status := "processed", processing_message := some msg } }

/-- WebhookLog markAsFailed (src/unnamed/part_007 lines 128-134). -/
def markFailed (msg : String) (w : WebhookLog) : WebhookLog :=
  { w with data := { w.data with
      processing_status := "failed",
      processing_message := some msg,
      retries := w.data.retries + 1 } }

/-- The webhook log update performed once the owning order is resolved
(transactions.controller.js lines 914-917). -/
def linkOrder (o : Order) (w : WebhookLog) : WebhookLog :=
  { w with data := { w.data with
      order_id := some o.id,
      custom_order_id := some o.custom_order_id,
      collect_request_id := o.collect_request_id } }

/-- The order-identifier guard of processWebhookData
(transactions.controller.js line 896). -/
def hasOrderIdentifier (parsed : Parsed) : Bool :=
  tS parsed.custom_order_id || tS parsed.collect_request_id

/-- Order resolution of processWebhookData (transactions.controller.js
lines 901-907): by custom_order_id when present, else by
collect_request_id.  There is no fallback from a present but unmatched
custom_order_id. -/
def resolveOrder (parsed : Parsed) (orders : List Order) : Option Order :=
  if tS parsed.custom_order_id then
    orders.find? (fun o => some o.custom_order_id == parsed.custom_order_id)
  else if tS parsed.collect_request_id then
    orders.find? (fun o => o.collect_request_id == parsed.collect_request_id)
  else
    none

/-- The statusData object built by processWebhookData
(transactions.controller.js lines 920-933); order_amount falls back to
the order's amount under JS truthiness. -/
def statusDataOfParsed (parsed : Parsed) (orderAmount : Int) : StatusData :=
  { order_amount := if tI parsed.order_amount then parsed.order_amount else some orderAmount,
    transaction_amount := parsed.transaction_amount,
    payment_mode := parsed.payment_mode,
    payment_details := parsed.payment_details,
    bank_reference := parsed.bank_reference,
    payment_message := parsed.payment_message,
    status := parsed.status,
    error_message := parsed.error_message,
    payment_time := parsed.payment_time,
    transaction_id := parsed.transaction_id,
    gateway := some parsed.gateway,
    vendor_data := some parsed }

/-- The status set for which processWebhookData also refreshes the
Order's cached status (transactions.controller.js line 939).  Note that
it does not contain refunded. -/
def orderCacheUpdateSet : List String := ["completed", "failed", "cancelled"]

/-- The includes test of line 939 under JS semantics: includes(null) and
includes(undefined) are false here. -/
def wantsOrderCacheUpdate (st : Option String) : Bool :=
  match st with
  | some s => orderCacheUpdateSet.contains s
  | none => false

/-- The error message thrown when no identifier is present
(transactions.controller.js line 897). -/
def noIdentifierMsg : String := "No order identifier found in webhook payload"

/-- The error message thrown when the order cannot be resolved
(transactions.controller.js line 910), with the JS template
interpolation of nullable identifiers. -/
def showOptId : Option String → String
  | some s => s
  | none => "null"

def orderNotFoundMsg (parsed : Parsed) : String :=
  "Order not found for identifiers: custom_order_id=" ++ showOptId parsed.custom_order_id
    ++ ", collect_request_id=" ++ showOptId parsed.collect_request_id

/-- processWebhookData (transactions.controller.js lines 895-949).  A
thrown JS error is the (some message) first component; awaited writes
made before a throw keep their effect on the returned store. -/
def processWebhookData (parsed : Parsed) (logId : Nat) (now : Nat) (db : DB) :
    Option String × DB :=
  if hasOrderIdentifier parsed then
    match resolveOrder parsed db.orders with
    | none => (some (orderNotFoundMsg parsed), db)
    | some order =>
      let db1 := { db with webhookLogs := updateFirst (fun w => w.id == logId) (linkOrder order) db.webhookLogs }
      match upsertStatus db1.ledger now order.id (statusDataOfParsed parsed order.amount) with
      | .error m => (some m, db1)
      | .ok led =>
        let db2 := { db1 with ledger := led }
        if wantsOrderCacheUpdate parsed.status then
          let os := updateFirst (fun o => o.id == order.id) (Order.updateStatus (parsed.status.getD "")) db2.orders
          (none, { db2 with orders := os })
        else
          (none, db2)
  else
    (some noIdentifierMsg, db)

/-- The HTTP response of the webhook endpoint. -/
structure WebhookResponse where
  success : Bool
  httpStatus : Nat
  message : String
deriving DecidableEq

/-- processWebhook (transactions.controller.js lines 713-796): build the
plain webhookLogData object, parse, persist a queued delivery record,
process, and mark it processed; on a thrown error the catch block tests
webhookLogData._id, which was never assigned, so it creates a second,
separate failed delivery record.  mkLogData is the plain webhookLogData
object built at lines 726-733 and filled at lines 738-749; its _id is
never assigned. -/
def mkLogData (payload : Payload) (now : Nat) : WebhookLogData :=
  let parsed := parseWebhookPayload payload now
  { _id := none,
    raw_payload := payload,
    received_at := now,
    parsed := some parsed,
    processing_status := "queued",
    processing_message := none,
    order_id := none,
    custom_order_id := if tS parsed.custom_order_id then parsed.custom_order_id else none,
    collect_request_id := if tS parsed.collect_request_id then parsed.collect_request_id else none,
    transaction_id := if tS parsed.transaction_id then parsed.transaction_id else none,
    retries := 0 }

/-- The request handler body of processWebhook, continuing the flow
described on mkLogData. -/
def processWebhook (db : DB) (payload : Payload) (now : Nat) :
    WebhookResponse × DB :=
  let parsed := parseWebhookPayload payload now
  let logData : WebhookLogData := mkLogData payload now
  let wdb := createLog logData db
  match processWebhookData parsed wdb.1.id now wdb.2 with
  | (none, db2) =>
    let logs := updateFirst (fun w => w.id == wdb.1.id) (markProcessed "Webhook processed successfully") db2.webhookLogs
    ({ success := true, httpStatus := 200, message := "Webhook processed successfully" },
     { db2 with webhookLogs := logs })
  | (some errMsg, db2) =>
    match logData._id with
    | some lid =>
      let logs := updateFirst (fun w => w.id == lid) (markFailed errMsg) db2.webhookLogs
      ({ success := false, httpStatus := 400, message := "Webhook processing failed" },
       { db2 with webhookLogs := logs })
    | none =>
      let fdb := createLog { logData with processing_status := "failed", processing_message := some errMsg } db2
      ({ success := false, httpStatus := 400, message := "Webhook processing failed" }, fdb.2)

/-- The shape of a JS/axios error as inspected by the retry caller:
error.message, error.response?.status and error.response?.data fields.
A network error has status none. -/
structure JsError where
  message : String
  status : Option Nat
  dataMessage : Option String
  dataCode : Option String
deriving DecidableEq

/-- The loop body of retryWithBackoff (src/unnamed/part_001 lines
31-60), with attempt the current index and remaining the number of
retries still allowed.  The result carries the trace of performed
attempts: their count and the backoff delays awaited between them. -/
def retryAux {α : Type} (op : Nat → Except JsError α) (baseDelay maxDelay : Nat) :
    Nat → Nat → Except JsError α × Nat × List Nat
  | attempt, 0 =>
    (match op attempt with
     | .ok v => .ok v
     | .error e => .error e, attempt + 1, [])
  | attempt, remaining + 1 =>
    match op attempt with
    | .ok v => (.ok v, attempt + 1, [])
    | .error _ =>
      let d := min (baseDelay * 2 ^ attempt) maxDelay
      let r := retryAux op baseDelay maxDelay (attempt + 1) remaining
      (r.1, r.2.1, d :: r.2.2)

/-- retryWithBackoff (src/unnamed/part_001 lines 31-60): run the
operation for attempt = 0..maxRetries, and after each failure short of
the ceiling await min(baseDelay * 2 ^ attempt, maxDelay).  Every thrown
error is retried; the error kind is never inspected. -/
def retryWithBackoff {α : Type} (op : Nat → Except JsError α) (maxRetries : Nat)
    (baseDelay : Nat) (maxDelay : Nat) : Except JsError α × Nat × List Nat :=
  retryAux op baseDelay maxDelay 0 maxRetries

/-- The data of a successful create-collect-request vendor response. -/
structure CollectResp where
  collect_request_id : String
  collect_request_url : String
  sign : Option String
deriving DecidableEq

/-- The normalized failure shape paymentService returns. -/
structure ServiceError where
  message : String
  status : Nat
  code : String
deriving DecidableEq

/-- paymentService.createCollectRequest (src/src/services/paymentService.js
lines 71-117): wrap the HTTP POST in retryWithBackoff with maxRetries 3,
base delay 1000 and max delay 5000, and normalize the outcome.  The Nat
and delay list expose the performed attempt trace. -/
def createCollectRequest (post : Nat → Except JsError CollectResp) :
    Except ServiceError CollectResp × Nat × List Nat :=
  match retryWithBackoff post 3 1000 5000 with
  | (.ok r, n, ds) => (.ok r, n, ds)
  | (.error e, n, ds) =>
    (.error
      { message := if tS e.dataMessage then e.dataMessage.getD "" else e.message,
        status := match e.status with
                  | some st => if st == 0 then 500 else st
                  | none => 500,
        code := if tS e.dataCode then e.dataCode.getD "" else "PAYMENT_API_ERROR" },
     n, ds)

/-- A payload carrying only a status string, used to trace the webhook
entry path of a raw vendor status through the real pipeline. -/
def mkStatusPayload (raw : String) : Payload :=
  { order_info := some { order_id := none, custom_order_id := some "ORD1" },
    payment_info := some
      { order_amount := none, transaction_amount := none, amount := none,
        payment_mode := none, payment_details := none, bank_reference := none,
        payment_message := none, message := none, status := some raw,
        error_message := none, gateway := none, payment_time := none,
        transaction_id := none },
    custom_order_id := none, collect_request_id := none, transaction_id := none,
    order_amount := none, transaction_amount := none, amount := none,
    payment_mode := none, payment_details := none, bank_reference := none,
    payment_message := none, message := none, status := none,
    error_message := none, gateway := none, payment_time := none }

/-- The status value the webhook path stores in the ledger for a raw
vendor status string: parseWebhookPayload followed by the statusData
construction of processWebhookData and upsertStatus on a fresh ledger.
None means the save was rejected by schema validation, so nothing was
stored. -/
def webhookStoredStatus (raw : String) : Option String :=
  let parsed := parseWebhookPayload (mkStatusPayload raw) 0
  match upsertStatus emptyLedger 0 1 (statusDataOfParsed parsed 100) with
  | .ok l =>
    match l.entries with
    | [e] => e.data.status
    | _ => none
  | .error _ => none

/-- A concrete pre-existing ledger entry for the poll path. -/
def pollEntry : OrderStatus :=
  { id := 0, collect_id := 1,
    data :=
      { order_amount := some 100, transaction_amount := some 0,
        payment_mode := some "online", payment_details := none,
        bank_reference := none, payment_message := none,
        status := some "pending", error_message := none, payment_time := none,
        transaction_id := none, gateway := some "edviron", vendor_data := none },
    createdAt := 0 }

/-- The status value the client-poll path stores in the ledger for a raw
vendor status string (checkPaymentStatus, src/src/config/env.js lines
267-296). -/
def pollStoredStatus (raw : String) : Option String :=
  (applyPollStatus pollEntry raw (some 100) 7).data.status

/-- A payload whose order_info carries only an order_id, used to trace
composite order_id splitting. -/
def mkOrderIdPayload (oid : String) : Payload :=
  { order_info := some { order_id := some oid, custom_order_id := none },
    payment_info := none,
    custom_order_id := none, collect_request_id := none, transaction_id := none,
    order_amount := none, transaction_amount := none, amount := none,
    payment_mode := none, payment_details := none, bank_reference := none,
    payment_message := none, message := none, status := none,
    error_message := none, gateway := none, payment_time := none }

/-- The axios error produced by a vendor 400 response. -/
def e400 : JsError :=
  { message := "Request failed with status code 400", status := some 400,
    dataMessage := none, dataCode := none }

/-- An HTTP operation that fails with a 400 on every attempt. -/
def op400 : Nat → Except JsError CollectResp := fun _ => .error e400

/-- A concrete completed observation for transaction T1. -/
def sdCompleted : StatusData :=
  { order_amount := some 100, transaction_amount := some 100,
    payment_mode := some "online", payment_details := none,
    bank_reference := some "BR1", payment_message := some "ok",
    status := some "completed", error_message := none, payment_time := some 50,
    transaction_id := some "T1", gateway := some "edviron", vendor_data := none }

/-- A later non-terminal observation for the same transaction T1. -/
def sdPendingT1 : StatusData :=
  { sdCompleted with
      status := some "pending",
      payment_message := some "still processing",
      payment_time := some 60 }

/-- A ledger holding the completed T1 entry for order 1. -/
def ledgerC1 : Ledger :=
  { entries := [{ id := 0, collect_id := 1, data := sdCompleted, createdAt := 10 }],
    nextId := 1 }

/-- A concrete observation without a transaction_id. -/
def sdNoTxn : StatusData :=
  { order_amount := some 100, transaction_amount := some 0,
    payment_mode := some "online", payment_details := none,
    bank_reference := none, payment_message := none,
    status := some "pending", error_message := none, payment_time := none,
    transaction_id := none, gateway := some "edviron", vendor_data := none }

/-- A concrete terminal observation for transaction T2 of order 2. -/
def sdFailedT2 : StatusData :=
  { order_amount := some 55, transaction_amount := some 0,
    payment_mode := some "upi", payment_details := none,
    bank_reference := none, payment_message := some "declined",
    status := some "failed", error_message := some "insufficient funds",
    payment_time := some 80, transaction_id := some "T2",
    gateway := some "edviron", vendor_data := none }

/-- An older non-terminal observation for the same transaction T2. -/
def sdCreatedT2 : StatusData :=
  { sdFailedT2 with
      status := some "created",
      payment_message := some "initiated",
      payment_time := some 70 }

/-- A concrete order and store for the webhook pipeline theorems. -/
def orderP : Order :=
  { id := 1, school_id := "SCH1", custom_order_id := "ORD1",
    collect_request_id := some "CRQ1", amount := 100, status := "pending" }

def dbP : DB :=
  { orders := [orderP], ledger := emptyLedger, webhookLogs := [], nextLogId := 0 }

/-- Ledgers reached by applying the transaction-id-free observation
sdNoTxn once and twice. -/
def ledgerOneNoTxn : Ledger :=
  { entries := [{ id := 0, collect_id := 1, data := sdNoTxn, createdAt := 5 }], nextId := 1 }

def ledgerTwoNoTxn : Ledger :=
  { entries := [{ id := 0, collect_id := 1, data := sdNoTxn, createdAt := 5 },
                { id := 1, collect_id := 1, data := sdNoTxn, createdAt := 6 }], nextId := 2 }

/-- A ledger with a terminal (failed) entry for transaction T2. -/
def ledgerT2 : Ledger :=
  { entries := [{ id := 0, collect_id := 2, data := sdFailedT2, createdAt := 0 }], nextId := 1 }

/-- A completed observation whose transaction_id is the empty string -
reachable through a webhook order_id of the form CRQ/ whose split
yields an empty second segment. -/
def sdEmptyTxn : StatusData :=
  { sdCompleted with transaction_id := some "" }

/-- Ledgers reached by applying sdEmptyTxn once and twice to a fresh
order: the empty transaction_id is falsy, so each application appends. -/
def ledgerOneEmptyTxn : Ledger :=
  { entries := [{ id := 0, collect_id := 1, data := sdEmptyTxn, createdAt := 5 }], nextId := 1 }

def ledgerTwoEmptyTxn : Ledger :=
  { entries := [{ id := 0, collect_id := 1, data := sdEmptyTxn, createdAt := 5 },
                { id := 1, collect_id := 1, data := sdEmptyTxn, createdAt := 6 }], nextId := 2 }

/-- A store holding one unrelated order, for the C6 witness. -/
def orderW : Order :=
  { id := 7, school_id := "S", custom_order_id := "OTHER",
    collect_request_id := some "CRX", amount := 10, status := "created" }

def dbW : DB :=
  { orders := [orderW], ledger := emptyLedger, webhookLogs := [], nextLogId := 0 }

/-- Two ledger entries collide when they belong to the same order and
carry the same truthy (nonempty) transaction_id - the key the merge
rule of upsertStatus actually uses, since line 94 treats an empty
transaction_id like an absent one. -/
def sameKey (a b : OrderStatus) : Bool :=
  a.collect_id == b.collect_id && tS a.data.transaction_id
    && (a.data.transaction_id == b.data.transaction_id)

/-- At most one ledger entry per (order, truthy transaction_id): no
later entry collides with an earlier one. -/
def noDupTxn : List OrderStatus → Bool
  | [] => true
  | e :: es => es.all (fun x => !(sameKey e x)) && noDupTxn es

theorem find?_updateFirst {α : Type} {p : α → Bool} {f : α → α} :
    ∀ {xs : List α} {e : α}, xs.find? p = some e → p (f e) = true →
      (updateFirst p f xs).find? p = some (f e) := by
  intro xs
  induction xs with
  | nil => intro e h hp; simp at h
  | cons x xs ih =>
    intro e h hp
    by_cases hx : p x = true
    · rw [List.find?_cons_of_pos _ hx] at h
      injection h with he
      subst he
      simp only [updateFirst, hx, if_true]
      exact List.find?_cons_of_pos _ hp
    · have hx' : p x = false := by
        exact Bool.not_eq_true _ ▸ Bool.of_not_eq_true hx
      rw [List.find?_cons_of_neg _ hx] at h
      simp only [updateFirst, hx', Bool.false_eq_true, if_false]
      rw [List.find?_cons_of_neg _ hx]
      exact ih h hp

theorem updateFirst_updateFirst {α : Type} {p : α → Bool} {f : α → α}
    (hpf : ∀ x, p x = true → p (f x) = true ∧ f (f x) = f x) :
    ∀ xs : List α, updateFirst p f (updateFirst p f xs) = updateFirst p f xs := by
  intro xs
  induction xs with
  | nil => rfl
  | cons x xs ih =>
    by_cases hx : p x = true
    · simp only [updateFirst, hx, if_true, (hpf x hx).1, (hpf x hx).2]
    · have hx' : p x = false := by
        exact Bool.not_eq_true _ ▸ Bool.of_not_eq_true hx
      simp only [updateFirst, hx', Bool.false_eq_true, if_false, ih]

theorem find?_append_of_none {α : Type} {p : α → Bool} {xs ys : List α}
    (h : xs.find? p = none) : (xs ++ ys).find? p = ys.find? p := by
  induction xs with
  | nil => rfl
  | cons x xs ih =>
    rw [List.find?_eq_none] at h
    have hx : p x = false := by
      have := h x (by simp)
      exact Bool.not_eq_true _ ▸ this
    rw [List.cons_append, List.find?_cons_of_neg _ (by simp [hx])]
    exact ih (List.find?_eq_none.mpr fun a ha => h a (by simp [ha]))

theorem updateFirst_append_of_none {α : Type} {p : α → Bool} {f : α → α}
    {xs : List α} (ys : List α) (h : xs.find? p = none) :
    updateFirst p f (xs ++ ys) = xs ++ updateFirst p f ys := by
  induction xs with
  | nil => rfl
  | cons x xs ih =>
    rw [List.find?_eq_none] at h
    have hx : p x = false := by
      have := h x (by simp)
      exact Bool.not_eq_true _ ▸ this
    rw [List.cons_append]
    simp only [updateFirst, hx, Bool.false_eq_true, if_false]
    rw [ih (List.find?_eq_none.mpr fun a ha => h a (by simp [ha]))]
    simp

theorem all_updateFirst {α : Type} {p : α → Bool} {f : α → α} {q : α → Bool}
    (hq : ∀ x, p x = true → q (f x) = q x) :
    ∀ xs : List α, xs.all q = true → (updateFirst p f xs).all q = true := by
  intro xs
  induction xs with
  | nil => intro h; exact h
  | cons x xs ih =>
    intro h
    rw [List.all_cons, Bool.and_eq_true] at h
    by_cases hx : p x = true
    · simp only [updateFirst, hx, if_true, List.all_cons, hq x hx, h.1, h.2, Bool.and_self]
    · have hx' : p x = false := by
        exact Bool.not_eq_true _ ▸ Bool.of_not_eq_true hx
      simp only [updateFirst, hx', Bool.false_eq_true, if_false, List.all_cons, h.1,
        ih h.2, Bool.and_self]

theorem noDupTxn_updateFirst {p : OrderStatus → Bool} {f : OrderStatus → OrderStatus}
    (h1 : ∀ x, p x = true → (f x).collect_id = x.collect_id)
    (h2 : ∀ x, p x = true → (f x).data.transaction_id = x.data.transaction_id) :
    ∀ xs : List OrderStatus, noDupTxn xs = true → noDupTxn (updateFirst p f xs) = true := by
  have hkey : ∀ x y, p x = true → sameKey (f x) y = sameKey x y := by
    intro x y hx
    simp only [sameKey, h1 x hx, h2 x hx]
  have hkey' : ∀ x y, p x = true → sameKey y (f x) = sameKey y x := by
    intro x y hx
    simp only [sameKey, h1 x hx, h2 x hx]
  intro xs
  induction xs with
  | nil => intro h; exact h
  | cons x xs ih =>
    intro h
    rw [noDupTxn, Bool.and_eq_true] at h
    by_cases hx : p x = true
    · simp only [updateFirst, hx, if_true, noDupTxn, Bool.and_eq_true]
      constructor
      · rw [List.all_eq_true] at h ⊢
        intro a ha
        rw [hkey x a hx]
        exact h.1 a ha
      · exact h.2
    · have hx' : p x = false := by
        exact Bool.not_eq_true _ ▸ Bool.of_not_eq_true hx
      simp only [updateFirst, hx', Bool.false_eq_true, if_false, noDupTxn, Bool.and_eq_true]
      refine ⟨?_, ih h.2⟩
      exact all_updateFirst (fun z hz => by rw [hkey' z x hz]) xs h.1

theorem noDupTxn_append_singleton {xs : List OrderStatus} {e : OrderStatus}
    (h : noDupTxn xs = true) (he : ∀ y ∈ xs, sameKey y e = false) :
    noDupTxn (xs ++ [e]) = true := by
  induction xs with
  | nil => simp [noDupTxn]
  | cons x xs ih =>
    rw [noDupTxn, Bool.and_eq_true] at h
    rw [List.cons_append, noDupTxn, Bool.and_eq_true]
    constructor
    · rw [List.all_eq_true]
      intro a ha
      rw [List.mem_append] at ha
      rcases ha with ha | ha
      · rw [List.all_eq_true] at h
        exact h.1 a ha
      · rw [List.mem_singleton] at ha
        subst ha
        simp [he x (by simp)]
    · exact ih h.2 (fun y hy => he y (by simp [hy]))

theorem matchesTxn_set_data {oid : Nat} {t : String} {x : OrderStatus} {sd : StatusData}
    (hx : matchesTxn oid t x = true) (htx : sd.transaction_id = some t) :
    matchesTxn oid t { x with data := sd } = true := by
  rw [matchesTxn, Bool.and_eq_true] at hx
  simp [matchesTxn, hx.1, htx]

theorem applyStatusDefaults_txn (sd : StatusData) :
    (applyStatusDefaults sd).transaction_id = sd.transaction_id := rfl

theorem applyStatusDefaults_status_of_some {sd : StatusData} {s : String}
    (hs : sd.status = some s) : (applyStatusDefaults sd).status = some s := by
  simp [applyStatusDefaults, hs]

theorem validStatusData_applyDefaults {sd : StatusData}
    (hv : validStatusData sd = true) :
    validStatusData (applyStatusDefaults sd) = true := by
  rcases hs : sd.status with _ | s
  · rw [validStatusData, hs] at hv
    simp at hv
  · rw [validStatusData] at hv
    rw [validStatusData, applyStatusDefaults_status_of_some hs]
    rw [hs] at hv
    have h1 : (applyStatusDefaults sd).order_amount = sd.order_amount := rfl
    have h2 : (applyStatusDefaults sd).transaction_amount = sd.transaction_amount := rfl
    rw [h1, h2]
    exact hv

theorem upsertStatus_not_truthy {l : Ledger} {now oid : Nat} {sd : StatusData}
    (hts : tS sd.transaction_id = false) :
    upsertStatus l now oid sd = saveNewStatus l now oid sd := by
  simp [upsertStatus, hts]

theorem upsertStatus_found {l : Ledger} {now oid : Nat} {t : String} {sd : StatusData}
    {e : OrderStatus} (htx : sd.transaction_id = some t) (ht : (t == "") = false)
    (hf : l.entries.find? (matchesTxn oid t) = some e)
    (hv : validStatusData sd = true) :
    upsertStatus l now oid sd =
      .ok { l with entries := updateFirst (matchesTxn oid t) (fun x => { x with data := sd }) l.entries } := by
  simp [upsertStatus, htx, tS, ht, Option.getD, hf, hv]

theorem saveNewStatus_ok {l : Ledger} {now oid : Nat} {sd : StatusData}
    (hv' : validStatusData (applyStatusDefaults sd) = true) :
    saveNewStatus l now oid sd =
      .ok { entries := l.entries ++
              [{ id := l.nextId, collect_id := oid, data := applyStatusDefaults sd, createdAt := now }],
            nextId := l.nextId + 1 } := by
  simp [saveNewStatus, hv']

theorem upsertStatus_to_save_no_match {l : Ledger} {now oid : Nat} {t : String} {sd : StatusData}
    (htx : sd.transaction_id = some t) (ht : (t == "") = false)
    (hf : l.entries.find? (matchesTxn oid t) = none) :
    upsertStatus l now oid sd = saveNewStatus l now oid sd := by
  simp [upsertStatus, htx, tS, ht, Option.getD, hf]

theorem upsertStatus_append_no_match {l : Ledger} {now oid : Nat} {t : String} {sd : StatusData}
    (htx : sd.transaction_id = some t) (ht : (t == "") = false)
    (hf : l.entries.find? (matchesTxn oid t) = none)
    (hv' : validStatusData (applyStatusDefaults sd) = true) :
    upsertStatus l now oid sd =
      .ok { entries := l.entries ++
              [{ id := l.nextId, collect_id := oid, data := applyStatusDefaults sd, createdAt := now }],
            nextId := l.nextId + 1 } := by
  rw [upsertStatus_to_save_no_match htx ht hf]
  exact saveNewStatus_ok hv'

theorem upsertStatus_append_falsy {l : Ledger} {now oid : Nat} {sd : StatusData}
    (hts : tS sd.transaction_id = false)
    (hv' : validStatusData (applyStatusDefaults sd) = true) :
    upsertStatus l now oid sd =
      .ok { entries := l.entries ++
              [{ id := l.nextId, collect_id := oid, data := applyStatusDefaults sd, createdAt := now }],
            nextId := l.nextId + 1 } := by
  rw [upsertStatus_not_truthy hts]
  exact saveNewStatus_ok hv'

theorem matchesTxn_new_entry {oid lid now : Nat} {t : String} {sd : StatusData}
    (htx : sd.transaction_id = some t) :
    matchesTxn oid t { id := lid, collect_id := oid, data := applyStatusDefaults sd, createdAt := now } = true := by
  simp [matchesTxn, applyStatusDefaults_txn, htx]

theorem valid_of_found_ok {l : Ledger} {now oid : Nat} {t : String} {sd : StatusData}
    {e : OrderStatus} {l' : Ledger}
    (htx : sd.transaction_id = some t) (ht : (t == "") = false)
    (hf : l.entries.find? (matchesTxn oid t) = some e)
    (h : upsertStatus l now oid sd = .ok l') :
    validStatusData sd = true := by
  by_cases hv : validStatusData sd = true
  · exact hv
  · exfalso
    have hv' : validStatusData sd = false := by
      exact Bool.not_eq_true _ ▸ Bool.of_not_eq_true hv
    simp [upsertStatus, htx, tS, ht, Option.getD, hf, hv'] at h

theorem valid_defaults_of_save_ok {l : Ledger} {now oid : Nat} {sd : StatusData} {l' : Ledger}
    (h : saveNewStatus l now oid sd = .ok l') :
    validStatusData (applyStatusDefaults sd) = true := by
  by_cases hv : validStatusData (applyStatusDefaults sd) = true
  · exact hv
  · exfalso
    have hv' : validStatusData (applyStatusDefaults sd) = false := by
      exact Bool.not_eq_true _ ▸ Bool.of_not_eq_true hv
    simp [saveNewStatus, hv'] at h

theorem upsertStatus_idem {l l' : Ledger} {now now2 oid : Nat} {t : String} {sd : StatusData}
    (htx : sd.transaction_id = some t) (ht : (t == "") = false)
    (happ : applyStatusDefaults sd = sd)
    (h : upsertStatus l now oid sd = .ok l') :
    upsertStatus l' now2 oid sd = .ok l' := by
  have hpf : ∀ x, matchesTxn oid t x = true →
      matchesTxn oid t ((fun x => { x with data := sd }) x) = true ∧
      (fun x => { x with data := sd }) ((fun x => { x with data := sd }) x) =
        (fun x => { x with data := sd }) x := by
    intro x hx
    exact ⟨matchesTxn_set_data hx htx, rfl⟩
  rcases hf : l.entries.find? (matchesTxn oid t) with _ | e
  · rw [upsertStatus_to_save_no_match htx ht hf] at h
    have hv' := valid_defaults_of_save_ok h
    rw [saveNewStatus_ok hv'] at h
    injection h with h'
    subst h'
    rw [happ] at hv' ⊢
    have hpNew : matchesTxn oid t
        ({ id := l.nextId, collect_id := oid, data := sd, createdAt := now } : OrderStatus) = true := by
      simp [matchesTxn, htx]
    have hfind2 : (l.entries ++
        [({ id := l.nextId, collect_id := oid, data := sd, createdAt := now } : OrderStatus)]).find?
          (matchesTxn oid t) =
        some { id := l.nextId, collect_id := oid, data := sd, createdAt := now } := by
      rw [find?_append_of_none hf]
      exact List.find?_cons_of_pos _ hpNew
    rw [upsertStatus_found htx ht hfind2 hv']
    congr 1
    rw [updateFirst_append_of_none _ hf]
    simp [updateFirst, hpNew]
  · have hv := valid_of_found_ok htx ht hf h
    rw [upsertStatus_found htx ht hf hv] at h
    injection h with h'
    subst h'
    have hpe : matchesTxn oid t e = true := List.find?_some hf
    have hfind2 : (updateFirst (matchesTxn oid t) (fun x => { x with data := sd })
        l.entries).find? (matchesTxn oid t) = some { e with data := sd } :=
      find?_updateFirst hf (matchesTxn_set_data hpe htx)
    rw [upsertStatus_found htx ht hfind2 hv]
    congr 2
    exact updateFirst_updateFirst hpf l.entries

theorem sameKey_append_falsy {oid lid now : Nat} {sd : StatusData} {y : OrderStatus}
    (hts : tS sd.transaction_id = false) :
    sameKey y { id := lid, collect_id := oid, data := applyStatusDefaults sd, createdAt := now } = false := by
  by_cases heq : (y.data.transaction_id == (applyStatusDefaults sd).transaction_id) = true
  · have hyt : y.data.transaction_id = sd.transaction_id := by
      rw [applyStatusDefaults_txn] at heq
      simpa using heq
    simp [sameKey, hyt, hts]
  · have heq' : (y.data.transaction_id == (applyStatusDefaults sd).transaction_id) = false := by
      exact Bool.not_eq_true _ ▸ Bool.of_not_eq_true heq
    simp [sameKey, heq']

theorem noDupTxn_upsert {l l' : Ledger} {now oid : Nat} {sd : StatusData}
    (hd : noDupTxn l.entries = true)
    (h : upsertStatus l now oid sd = .ok l') :
    noDupTxn l'.entries = true := by
  by_cases hts : tS sd.transaction_id = true
  · rcases htx : sd.transaction_id with _ | t
    · rw [htx] at hts
      simp [tS] at hts
    · have ht : (t == "") = false := by
        rw [htx] at hts
        simpa [tS] using hts
      rcases hf : l.entries.find? (matchesTxn oid t) with _ | e
      · rw [upsertStatus_to_save_no_match htx ht hf] at h
        have hv' := valid_defaults_of_save_ok h
        rw [saveNewStatus_ok hv'] at h
        injection h with h'
        subst h'
        refine noDupTxn_append_singleton hd ?_
        intro y hy
        by_cases hk : sameKey y
            { id := l.nextId, collect_id := oid, data := applyStatusDefaults sd, createdAt := now } = true
        · exfalso
          rw [sameKey, Bool.and_eq_true, Bool.and_eq_true] at hk
          have h1 : (y.collect_id == oid) = true := hk.1.1
          have h2 : (y.data.transaction_id == some t) = true := by
            have hk2 := hk.2
            simp only [applyStatusDefaults_txn, htx] at hk2
            exact hk2
          have hm : matchesTxn oid t y = true := by
            simp [matchesTxn, Bool.and_eq_true]
            exact ⟨of_decide_eq_true (by simpa using h1), of_decide_eq_true (by simpa using h2)⟩
          rw [List.find?_eq_none] at hf
          exact hf y hy hm
        · exact Bool.not_eq_true _ ▸ Bool.of_not_eq_true hk
      · have hv := valid_of_found_ok htx ht hf h
        rw [upsertStatus_found htx ht hf hv] at h
        injection h with h'
        subst h'
        refine noDupTxn_updateFirst ?_ ?_ l.entries hd
        · intro x _
          rfl
        · intro x hx
          rw [matchesTxn, Bool.and_eq_true] at hx
          have hxt : x.data.transaction_id = some t := by simpa using hx.2
          simp [hxt, htx]
  · have hts' : tS sd.transaction_id = false := by
      exact Bool.not_eq_true _ ▸ Bool.of_not_eq_true hts
    rw [upsertStatus_not_truthy hts'] at h
    have hv' := valid_defaults_of_save_ok h
    rw [saveNewStatus_ok hv'] at h
    injection h with h'
    subst h'
    exact noDupTxn_append_singleton hd (fun y _ => sameKey_append_falsy hts')

theorem retryAux_all_fail {α : Type} {op : Nat → Except JsError α} {e : JsError}
    (h : ∀ i, op i = .error e) (baseDelay maxDelay : Nat) :
    ∀ remaining attempt, retryAux op baseDelay maxDelay attempt remaining =
      (.error e, attempt + remaining + 1,
        (List.range remaining).map (fun j => min (baseDelay * 2 ^ (attempt + j)) maxDelay)) := by
  intro remaining
  induction remaining with
  | zero =>
    intro attempt
    simp [retryAux, h attempt]
  | succ r ih =>
    intro attempt
    rw [retryAux, h attempt]
    rw [ih (attempt + 1)]
    have hn : attempt + 1 + r + 1 = attempt + (r + 1) + 1 := by omega
    have hl : min (baseDelay * 2 ^ attempt) maxDelay ::
        (List.range r).map (fun j => min (baseDelay * 2 ^ (attempt + 1 + j)) maxDelay) =
        (List.range (r + 1)).map (fun j => min (baseDelay * 2 ^ (attempt + j)) maxDelay) := by
      rw [List.range_succ_eq_map, List.map_cons, List.map_map]
      simp only [Nat.add_zero, List.cons.injEq]
      refine ⟨trivial, ?_⟩
      apply List.map_congr_left
      intro j _
      simp only [Function.comp_apply]
      have he : attempt + Nat.succ j = attempt + 1 + j := by omega
      rw [he]
    simp only [Prod.mk.injEq]
    exact ⟨trivial, hn, hl⟩

theorem retryWithBackoff_all_fail {α : Type} {op : Nat → Except JsError α} {e : JsError}
    (h : ∀ i, op i = .error e) (maxRetries baseDelay maxDelay : Nat) :
    retryWithBackoff op maxRetries baseDelay maxDelay =
      (.error e, maxRetries + 1,
        (List.range maxRetries).map (fun j => min (baseDelay * 2 ^ j) maxDelay)) := by
  rw [retryWithBackoff, retryAux_all_fail h baseDelay maxDelay maxRetries 0]
  simp

theorem webhookStoredStatus_eq (raw : String) :
    webhookStoredStatus raw = if statusEnum.contains raw then some raw else none := by
  have hts : tS (statusDataOfParsed (parseWebhookPayload (mkStatusPayload raw) 0) 100).transaction_id
      = false := by
    simp [statusDataOfParsed, parseWebhookPayload, mkStatusPayload, emptyParsed, tS, tI, tN]
  have hst : (statusDataOfParsed (parseWebhookPayload (mkStatusPayload raw) 0) 100).status
      = some raw := by
    simp [statusDataOfParsed, parseWebhookPayload, mkStatusPayload, emptyParsed, tS, tI, tN]
  by_cases hc : statusEnum.contains raw = true
  · have hm : raw ∈ statusEnum := by simpa using hc
    have hv' : validStatusData (applyStatusDefaults
        (statusDataOfParsed (parseWebhookPayload (mkStatusPayload raw) 0) 100)) = true := by
      simp [validStatusData, applyStatusDefaults, statusDataOfParsed, parseWebhookPayload,
        mkStatusPayload, emptyParsed, tS, tI, tN, hm]
    rw [webhookStoredStatus]
    rw [upsertStatus_append_falsy hts hv']
    simp [emptyLedger, hm, applyStatusDefaults, statusDataOfParsed, parseWebhookPayload,
      mkStatusPayload, emptyParsed, tS, tI, tN]
  · have hc' : statusEnum.contains raw = false := by
      exact Bool.not_eq_true _ ▸ Bool.of_not_eq_true hc
    have hm : raw ∉ statusEnum := by simpa using hc'
    have hv' : validStatusData (applyStatusDefaults
        (statusDataOfParsed (parseWebhookPayload (mkStatusPayload raw) 0) 100)) = false := by
      simp [validStatusData, applyStatusDefaults, statusDataOfParsed, parseWebhookPayload,
        mkStatusPayload, emptyParsed, tS, tI, tN, hm]
    rw [webhookStoredStatus]
    have hup : upsertStatus emptyLedger 0 1
        (statusDataOfParsed (parseWebhookPayload (mkStatusPayload raw) 0) 100) =
        .error "OrderStatus validation failed" := by
      rw [upsertStatus_not_truthy hts]
      simp [saveNewStatus, hv']
    rw [hup]
    simp [hm]

theorem upsert_ok_of_valid {l : Ledger} {now oid : Nat} {sd : StatusData}
    (hv : validStatusData sd = true) :
    ∃ l', upsertStatus l now oid sd = .ok l' := by
  have hv' : validStatusData (applyStatusDefaults sd) = true := validStatusData_applyDefaults hv
  by_cases hts : tS sd.transaction_id = true
  · rcases htx : sd.transaction_id with _ | t
    · rw [htx] at hts
      simp [tS] at hts
    · have ht : (t == "") = false := by
        rw [htx] at hts
        simpa [tS] using hts
      rcases hf : l.entries.find? (matchesTxn oid t) with _ | e
      · exact ⟨_, upsertStatus_append_no_match htx ht hf hv'⟩
      · exact ⟨_, upsertStatus_found htx ht hf hv⟩
  · have hts' : tS sd.transaction_id = false := by
      exact Bool.not_eq_true _ ▸ Bool.of_not_eq_true hts
    exact ⟨_, upsertStatus_append_falsy hts' hv'⟩

theorem hasOrderIdentifier_of_resolve {parsed : Parsed} {os : List Order} {o : Order}
    (h : resolveOrder parsed os = some o) : hasOrderIdentifier parsed = true := by
  by_cases h1 : tS parsed.custom_order_id = true
  · simp [hasOrderIdentifier, h1]
  · by_cases h2 : tS parsed.collect_request_id = true
    · simp [hasOrderIdentifier, h2]
    · exfalso
      have e1 : tS parsed.custom_order_id = false := by
        exact Bool.not_eq_true _ ▸ Bool.of_not_eq_true h1
      have e2 : tS parsed.collect_request_id = false := by
        exact Bool.not_eq_true _ ▸ Bool.of_not_eq_true h2
      rw [resolveOrder] at h
      simp [e1, e2] at h

theorem processWebhookData_log_effects (parsed : Parsed) (logId now : Nat) (db : DB) :
    (processWebhookData parsed logId now db).2.nextLogId = db.nextLogId ∧
    ((processWebhookData parsed logId now db).2.webhookLogs = db.webhookLogs ∨
     ∃ o, (processWebhookData parsed logId now db).2.webhookLogs =
       updateFirst (fun w => w.id == logId) (linkOrder o) db.webhookLogs) := by
  by_cases hid : hasOrderIdentifier parsed = true
  · rcases hr : resolveOrder parsed db.orders with _ | order
    · simp [processWebhookData, hid, hr]
    · rcases hu : upsertStatus db.ledger now order.id (statusDataOfParsed parsed order.amount)
        with m | led
      · simp only [processWebhookData, hid, if_true, hr]
        rw [hu]
        exact ⟨by simp, Or.inr ⟨order, rfl⟩⟩
      · simp only [processWebhookData, hid, if_true, hr]
        rw [hu]
        by_cases hw : wantsOrderCacheUpdate parsed.status = true
        · simp only [hw, if_true]
          exact ⟨by simp, Or.inr ⟨order, rfl⟩⟩
        · have hw' : wantsOrderCacheUpdate parsed.status = false := by
            exact Bool.not_eq_true _ ▸ Bool.of_not_eq_true hw
          simp only [hw', Bool.false_eq_true, if_false]
          exact ⟨by simp, Or.inr ⟨order, rfl⟩⟩
  · have hid' : hasOrderIdentifier parsed = false := by
      exact Bool.not_eq_true _ ▸ Bool.of_not_eq_true hid
    simp [processWebhookData, hid']

/-- C9: on the client-poll path (checkPaymentStatus), the vendor status
string SUCCESS always maps to ledger status completed, FAILED maps to
failed, and any other string maps to pending; an unrecognized string is
never mapped to failed or completed.  The stored status is exactly the
mapped value. -/
theorem C9_poll_status_mapping :
    (∀ (e : OrderStatus) (amount : Option Int) (now : Nat) (raw : String),
      (applyPollStatus e raw amount now).data.status = some (mapApiStatus raw)) ∧
    mapApiStatus "SUCCESS" = "completed" ∧
    mapApiStatus "FAILED" = "failed" ∧
    (∀ raw : String, raw ≠ "SUCCESS" → raw ≠ "FAILED" →
      mapApiStatus raw = "pending" ∧
      mapApiStatus raw ≠ "completed" ∧ mapApiStatus raw ≠ "failed") := by
  refine ⟨fun e amount now raw => rfl, rfl, rfl, ?_⟩
  intro raw h1 h2
  have b1 : (raw == "SUCCESS") = false := by simpa using h1
  have b2 : (raw == "FAILED") = false := by simpa using h2
  refine ⟨?_, ?_, ?_⟩ <;> simp [mapApiStatus, b1, b2]

/-- Witness for C9 at the unrecognized vendor string PROCESSING. -/
theorem C9_poll_status_mapping_witness :
    mapApiStatus "PROCESSING" = "pending" ∧
    mapApiStatus "PROCESSING" ≠ "completed" ∧ mapApiStatus "PROCESSING" ≠ "failed" :=
  C9_poll_status_mapping.2.2.2 "PROCESSING" (by decide) (by decide)

/-- C8: webhook normalization splits a composite order_info.order_id:
for CRQ123/TXN456 the parsed result has collect_request_id CRQ123 and
transaction_id TXN456; for an order_id containing no slash (so that the
JS split returns the single segment [s]) the whole value becomes
collect_request_id and no transaction_id is derived. -/
theorem C8_composite_order_id_parsing :
    ((parseWebhookPayload (mkOrderIdPayload "CRQ123/TXN456") 3).collect_request_id = some "CRQ123" ∧
     (parseWebhookPayload (mkOrderIdPayload "CRQ123/TXN456") 3).transaction_id = some "TXN456") ∧
    (∀ (s : String) (now : Nat), s ≠ "" → jsSplitSlash s = [s] →
      (parseWebhookPayload (mkOrderIdPayload s) now).collect_request_id = some s ∧
      (parseWebhookPayload (mkOrderIdPayload s) now).transaction_id = none) := by
  refine ⟨by decide, ?_⟩
  intro s now hs hsplit
  have hb : (s == "") = false := by simpa using hs
  constructor <;>
    simp [parseWebhookPayload, mkOrderIdPayload, emptyParsed, tS, tN, hb, hsplit]

/-- Witness for C8 at a slash-free order_id. -/
theorem C8_composite_order_id_parsing_witness :
    (parseWebhookPayload (mkOrderIdPayload "CRQ9") 4).collect_request_id = some "CRQ9" ∧
    (parseWebhookPayload (mkOrderIdPayload "CRQ9") 4).transaction_id = none :=
  C8_composite_order_id_parsing.2 "CRQ9" 4 (by decide) (by decide)

/-- C4 counterexample: a createCollectRequest call whose every attempt
fails with a vendor 400 response performs four attempts (with backoff
delays 1000, 2000, 4000), not exactly one, because retryWithBackoff
never inspects the error kind. -/
theorem C4_cex_4xx_is_retried :
    (createCollectRequest op400).2.1 = 4 ∧
    (createCollectRequest op400).2.2 = [1000, 2000, 4000] ∧
    (createCollectRequest op400).1 =
      .error { message := "Request failed with status code 400", status := 400,
               code := "PAYMENT_API_ERROR" } ∧
    e400.status = some 400 ∧
    (4 : Nat) ≠ 1 := by
  decide

/-- C4 amended: vendor calls retry every failure - 4xx responses
included - with exponential backoff delay min(baseDelay * 2 ^ attempt,
maxDelay) and the fixed ceiling of maxRetries + 1 attempts;
createCollectRequest uses maxRetries 3, so an always-failing call (of
any error kind) performs exactly 4 attempts. -/
theorem C4_retry_backoff_all_errors :
    (∀ {α : Type} (op : Nat → Except JsError α) (e : JsError)
        (maxRetries baseDelay maxDelay : Nat),
      (∀ i, op i = .error e) →
      retryWithBackoff op maxRetries baseDelay maxDelay =
        (.error e, maxRetries + 1,
          (List.range maxRetries).map (fun j => min (baseDelay * 2 ^ j) maxDelay))) ∧
    (∀ (post : Nat → Except JsError CollectResp) (e : JsError),
      (∀ i, post i = .error e) →
      (createCollectRequest post).2.1 = 4 ∧
      (createCollectRequest post).2.2 =
        (List.range 3).map (fun j => min (1000 * 2 ^ j) 5000)) := by
  constructor
  · intro α op e maxRetries baseDelay maxDelay h
    exact retryWithBackoff_all_fail h maxRetries baseDelay maxDelay
  · intro post e h
    rw [createCollectRequest, retryWithBackoff_all_fail h 3 1000 5000]
    exact ⟨rfl, rfl⟩

/-- Witness for C4 at the constant 400-failing operation. -/
theorem C4_retry_backoff_all_errors_witness :
    (createCollectRequest op400).2.1 = 4 ∧
    (createCollectRequest op400).2.2 =
      (List.range 3).map (fun j => min (1000 * 2 ^ j) 5000) :=
  C4_retry_backoff_all_errors.2 op400 e400 (fun _ => rfl)

/-- C3 counterexample: for the raw vendor status string completed, the
webhook path stores completed while the client-poll path stores pending,
so the raw-status mapping is not applied identically on both entry
paths. -/
theorem C3_cex_paths_disagree :
    webhookStoredStatus "completed" = some "completed" ∧
    pollStoredStatus "completed" = some "pending" ∧
    webhookStoredStatus "completed" ≠ pollStoredStatus "completed" := by
  decide

/-- C3 amended: the SUCCESS/FAILED/else-pending mapping is applied only
on the client-poll path; the webhook path stores the raw status string
unchanged when it lies in the schema enumeration and stores nothing
otherwise, so the two paths store the same value exactly for the raw
string pending. -/
theorem C3_mapping_only_on_poll_path :
    (∀ raw, pollStoredStatus raw = some (mapApiStatus raw)) ∧
    (∀ raw, webhookStoredStatus raw =
      if statusEnum.contains raw then some raw else none) ∧
    (∀ raw, webhookStoredStatus raw = pollStoredStatus raw ↔ raw = "pending") := by
  refine ⟨fun raw => rfl, webhookStoredStatus_eq, ?_⟩
  intro raw
  by_cases hc : statusEnum.contains raw = true
  · have hm : raw ∈ statusEnum := by simpa using hc
    fin_cases hm <;> decide
  · have hc' : statusEnum.contains raw = false := by
      exact Bool.not_eq_true _ ▸ Bool.of_not_eq_true hc
    have hm : raw ∉ statusEnum := by simpa using hc'
    constructor
    · intro heq
      have hp : pollStoredStatus raw = some (mapApiStatus raw) := rfl
      rw [webhookStoredStatus_eq, hp] at heq
      simp [hm] at heq
    · intro h
      subst h
      exact absurd (by decide : statusEnum.contains "pending" = true) hc

/-- C1 counterexample: with a completed entry for transaction T1 on the
ledger, applying a pending observation for T1 leaves the entry with
status pending: the terminal status is overwritten, not kept. -/
theorem C1_cex_terminal_overwritten :
    isTerminalSpec sdCompleted.status = true ∧
    isTerminalSpec sdPendingT1.status = false ∧
    upsertStatus ledgerC1 20 1 sdPendingT1 =
      .ok { entries := [{ id := 0, collect_id := 1, data := sdPendingT1, createdAt := 10 }],
            nextId := 1 } ∧
    sdPendingT1.status = some "pending" ∧
    sdPendingT1.status ≠ some "completed" := by
  decide

/-- C1 amended: when an observation whose nonempty transaction_id
matches an existing ledger entry arrives, upsertStatus overwrites every
field of the entry with the observation's fields, the status included:
a non-terminal observation arriving after a terminal entry regresses
the stored status to the observation's status, and no conflict is
logged.  (An observation with an empty transaction_id is treated as if
it had none - line 94's truthiness guard - and appends instead.) -/
theorem C1_upsert_overwrites_terminal :
    ∀ (l : Ledger) (now oid : Nat) (t : String) (sd : StatusData) (e : OrderStatus),
      sd.transaction_id = some t →
      (t == "") = false →
      validStatusData sd = true →
      l.entries.find? (matchesTxn oid t) = some e →
      isTerminalSpec e.data.status = true →
      isTerminalSpec sd.status = false →
      ∃ l', upsertStatus l now oid sd = .ok l' ∧
        l'.entries.find? (matchesTxn oid t) = some { e with data := sd } ∧
        (l'.entries.find? (matchesTxn oid t)).map (fun x => x.data.status) = some sd.status := by
  intro l now oid t sd e htx ht hv hf _ _
  have hfind : (updateFirst (matchesTxn oid t) (fun x => { x with data := sd })
      l.entries).find? (matchesTxn oid t) = some { e with data := sd } :=
    find?_updateFirst hf (matchesTxn_set_data (List.find?_some hf) htx)
  exact ⟨_, upsertStatus_found htx ht hf hv, hfind, by rw [hfind]; rfl⟩

/-- Witness for C1 at the concrete completed-then-pending ledger. -/
theorem C1_upsert_overwrites_terminal_witness :
    ∃ l', upsertStatus ledgerC1 20 1 sdPendingT1 = .ok l' ∧
      l'.entries.find? (matchesTxn 1 "T1") =
        some { id := 0, collect_id := 1, data := sdPendingT1, createdAt := 10 } ∧
      (l'.entries.find? (matchesTxn 1 "T1")).map (fun x => x.data.status) =
        some sdPendingT1.status :=
  C1_upsert_overwrites_terminal ledgerC1 20 1 "T1" sdPendingT1
    { id := 0, collect_id := 1, data := sdCompleted, createdAt := 10 }
    rfl (by decide) (by decide) (by decide) (by decide) (by decide)

/-- C2 counterexample: applying an observation without a transaction_id
twice appends two entries (so re-application is not a no-op beyond a
timestamp refresh), and applying an older non-terminal observation
after a terminal one for the same transaction_id regresses the stored
status. -/
theorem C2_cex_not_idempotent_and_regresses :
    upsertStatus emptyLedger 5 1 sdNoTxn = .ok ledgerOneNoTxn ∧
    upsertStatus ledgerOneNoTxn 6 1 sdNoTxn = .ok ledgerTwoNoTxn ∧
    ledgerTwoNoTxn ≠ ledgerOneNoTxn ∧
    ledgerTwoNoTxn.entries.length = 2 ∧
    isTerminalSpec sdFailedT2.status = true ∧
    isTerminalSpec sdCreatedT2.status = false ∧
    upsertStatus ledgerT2 9 2 sdCreatedT2 =
      .ok { entries := [{ id := 0, collect_id := 2, data := sdCreatedT2, createdAt := 0 }],
            nextId := 1 } := by
  decide

/-- C2 amended: the merge rule is idempotent under re-application only
for observations carrying a truthy (nonempty) transaction_id whose
defaulted fields are explicit - re-applying such an observation leaves
the ledger unchanged; an observation whose transaction_id is absent or
empty (falsy under line 94's guard) appends a fresh entry on every
application; and for a matched transaction_id the last writer wins, so
an older non-terminal observation applied after a terminal one
overwrites the stored state rather than being dropped. -/
theorem C2_merge_reapplication :
    (∀ (l l' : Ledger) (now now2 oid : Nat) (t : String) (sd : StatusData),
      sd.transaction_id = some t →
      (t == "") = false →
      applyStatusDefaults sd = sd →
      upsertStatus l now oid sd = .ok l' →
      upsertStatus l' now2 oid sd = .ok l') ∧
    (∀ (l l' : Ledger) (now oid : Nat) (sd : StatusData),
      tS sd.transaction_id = false →
      upsertStatus l now oid sd = .ok l' →
      l'.entries.length = l.entries.length + 1) ∧
    (∀ (l : Ledger) (now oid : Nat) (t : String) (sd : StatusData) (e : OrderStatus),
      sd.transaction_id = some t →
      (t == "") = false →
      validStatusData sd = true →
      l.entries.find? (matchesTxn oid t) = some e →
      ∃ l', upsertStatus l now oid sd = .ok l' ∧
        l'.entries.find? (matchesTxn oid t) = some { e with data := sd }) := by
  refine ⟨?_, ?_, ?_⟩
  · intro l l' now now2 oid t sd htx ht happ h
    exact upsertStatus_idem htx ht happ h
  · intro l l' now oid sd hts h
    rw [upsertStatus_not_truthy hts] at h
    have hv' := valid_defaults_of_save_ok h
    rw [saveNewStatus_ok hv'] at h
    injection h with h'
    subst h'
    simp
  · intro l now oid t sd e htx ht hv hf
    exact ⟨_, upsertStatus_found htx ht hf hv,
      find?_updateFirst hf (matchesTxn_set_data (List.find?_some hf) htx)⟩

/-- Witness for C2 at concrete ledgers: idempotence of a
transaction-carrying observation, the append behaviour of both falsy
transaction_id shapes (absent and empty), and the last-writer-wins
overwrite. -/
theorem C2_merge_reapplication_witness :
    upsertStatus { entries := [{ id := 0, collect_id := 1, data := sdCompleted, createdAt := 11 }],
                   nextId := 1 } 12 1 sdCompleted =
      .ok { entries := [{ id := 0, collect_id := 1, data := sdCompleted, createdAt := 11 }],
            nextId := 1 } ∧
    ledgerOneNoTxn.entries.length = emptyLedger.entries.length + 1 ∧
    ledgerTwoEmptyTxn.entries.length = ledgerOneEmptyTxn.entries.length + 1 ∧
    (∃ l', upsertStatus ledgerC1 20 1 sdPendingT1 = .ok l' ∧
      l'.entries.find? (matchesTxn 1 "T1") =
        some { id := 0, collect_id := 1, data := sdPendingT1, createdAt := 10 }) :=
  ⟨C2_merge_reapplication.1 emptyLedger _ 11 12 1 "T1" sdCompleted rfl (by decide) (by decide)
     (by decide),
   C2_merge_reapplication.2.1 emptyLedger ledgerOneNoTxn 5 1 sdNoTxn (by decide) (by decide),
   C2_merge_reapplication.2.1 ledgerOneEmptyTxn ledgerTwoEmptyTxn 6 1 sdEmptyTxn
     (by decide) (by decide),
   C2_merge_reapplication.2.2 ledgerC1 20 1 "T1" sdPendingT1
     { id := 0, collect_id := 1, data := sdCompleted, createdAt := 10 }
     rfl (by decide) (by decide) (by decide)⟩

/-- C5 counterexample: the observation sdEmptyTxn carries
transaction_id "" (reachable through a composite order_id of the form
CRQ/), which line 94's truthiness guard treats as absent, so applying
it twice to a fresh order appends twice: two ledger entries for the
same (order, transaction_id "") pair, not one. -/
theorem C5_cex_empty_txn_duplicate_entries :
    sdEmptyTxn.transaction_id = some "" ∧
    sdEmptyTxn.order_amount = some 100 ∧
    upsertStatus emptyLedger 5 1 sdEmptyTxn = .ok ledgerOneEmptyTxn ∧
    upsertStatus ledgerOneEmptyTxn 6 1 sdEmptyTxn = .ok ledgerTwoEmptyTxn ∧
    ledgerTwoEmptyTxn.entries.length = 2 ∧
    ledgerTwoEmptyTxn.entries.countP
      (fun e => e.collect_id == 1 && e.data.transaction_id == some "") = 2 ∧
    (2 : Nat) ≠ 1 := by
  decide

/-- C5 amended: applying the same observation with a truthy (nonempty)
transaction_id twice to an order with no entry for that transaction_id
yields exactly one matching entry - holding the observation's amount -
with the ledger one entry longer, not two; and upsertStatus preserves
at-most-one-entry-per-(order, truthy transaction_id).  Observations
whose transaction_id is empty behave like ones without and may
duplicate. -/
theorem C5_merge_unique_nonempty_txn :
    (∀ (l : Ledger) (now now2 oid : Nat) (t : String) (amt : Int) (sd : StatusData),
      sd.transaction_id = some t →
      (t == "") = false →
      sd.order_amount = some amt →
      validStatusData sd = true →
      l.entries.find? (matchesTxn oid t) = none →
      ∃ l1 l2, upsertStatus l now oid sd = .ok l1 ∧
        upsertStatus l1 now2 oid sd = .ok l2 ∧
        l2.entries.countP (matchesTxn oid t) = 1 ∧
        l2.entries.length = l.entries.length + 1 ∧
        (l2.entries.find? (matchesTxn oid t)).map (fun e => e.data.order_amount) =
          some (some amt)) ∧
    (∀ (l l' : Ledger) (now oid : Nat) (sd : StatusData),
      noDupTxn l.entries = true →
      upsertStatus l now oid sd = .ok l' →
      noDupTxn l'.entries = true) := by
  constructor
  · intro l now now2 oid t amt sd htx ht hamt hv hf
    have hv' : validStatusData (applyStatusDefaults sd) = true := validStatusData_applyDefaults hv
    have h1 := @upsertStatus_append_no_match l now oid t sd htx ht hf hv'
    have hpNew : matchesTxn oid t
        ({ id := l.nextId, collect_id := oid, data := applyStatusDefaults sd, createdAt := now } :
          OrderStatus) = true := matchesTxn_new_entry htx
    have hfind1 : ((l.entries ++
        [({ id := l.nextId, collect_id := oid, data := applyStatusDefaults sd, createdAt := now } :
          OrderStatus)]).find? (matchesTxn oid t)) =
        some { id := l.nextId, collect_id := oid, data := applyStatusDefaults sd, createdAt := now } := by
      rw [find?_append_of_none hf]
      exact List.find?_cons_of_pos _ hpNew
    have h2 := @upsertStatus_found
      { entries := l.entries ++
          [{ id := l.nextId, collect_id := oid, data := applyStatusDefaults sd, createdAt := now }],
        nextId := l.nextId + 1 }
      now2 oid t sd _ htx ht hfind1 hv
    have hpf : matchesTxn oid t
        ({ id := l.nextId, collect_id := oid, data := sd, createdAt := now } : OrderStatus) = true := by
      simp [matchesTxn, htx]
    have hentries : updateFirst (matchesTxn oid t) (fun x => { x with data := sd })
        (l.entries ++
          [({ id := l.nextId, collect_id := oid, data := applyStatusDefaults sd, createdAt := now } :
            OrderStatus)]) =
        l.entries ++ [{ id := l.nextId, collect_id := oid, data := sd, createdAt := now }] := by
      rw [updateFirst_append_of_none _ hf]
      simp [updateFirst, hpNew]
    refine ⟨_, _, h1, h2, ?_, ?_, ?_⟩
    · show (updateFirst (matchesTxn oid t) (fun x => { x with data := sd })
        (l.entries ++
          [({ id := l.nextId, collect_id := oid, data := applyStatusDefaults sd, createdAt := now } :
            OrderStatus)])).countP (matchesTxn oid t) = 1
      rw [hentries, List.countP_append]
      have h0 : l.entries.countP (matchesTxn oid t) = 0 := by
        rw [List.countP_eq_zero]
        intro a ha
        rw [List.find?_eq_none] at hf
        exact hf a ha
      rw [h0]
      simp [List.countP_cons, hpf]
    · show (updateFirst (matchesTxn oid t) (fun x => { x with data := sd })
        (l.entries ++
          [({ id := l.nextId, collect_id := oid, data := applyStatusDefaults sd, createdAt := now } :
            OrderStatus)])).length = l.entries.length + 1
      rw [hentries]
      simp
    · show ((updateFirst (matchesTxn oid t) (fun x => { x with data := sd })
        (l.entries ++
          [({ id := l.nextId, collect_id := oid, data := applyStatusDefaults sd, createdAt := now } :
            OrderStatus)])).find? (matchesTxn oid t)).map (fun e => e.data.order_amount) =
        some (some amt)
      rw [hentries, find?_append_of_none hf, List.find?_cons_of_pos _ hpf]
      simp [hamt]
  · intro l l' now oid sd hd h
    exact noDupTxn_upsert hd h

/-- Witness for C5 at a fresh order and the completed T1 observation. -/
theorem C5_merge_unique_nonempty_txn_witness :
    (∃ l1 l2, upsertStatus emptyLedger 11 1 sdCompleted = .ok l1 ∧
      upsertStatus l1 12 1 sdCompleted = .ok l2 ∧
      l2.entries.countP (matchesTxn 1 "T1") = 1 ∧
      l2.entries.length = emptyLedger.entries.length + 1 ∧
      (l2.entries.find? (matchesTxn 1 "T1")).map (fun e => e.data.order_amount) =
        some (some (100 : Int))) ∧
    noDupTxn ledgerTwoNoTxn.entries = true :=
  ⟨C5_merge_unique_nonempty_txn.1 emptyLedger 11 12 1 "T1" 100 sdCompleted
     rfl (by decide) rfl (by decide) (by decide),
   C5_merge_unique_nonempty_txn.2 ledgerOneNoTxn ledgerTwoNoTxn 6 1 sdNoTxn
     (by decide) (by decide)⟩

theorem createLog_fst (d : WebhookLogData) (db : DB) :
    (createLog d db).1 = { id := db.nextLogId, data := d } := rfl

theorem createLog_snd (d : WebhookLogData) (db : DB) :
    (createLog d db).2 =
      { db with
          webhookLogs := db.webhookLogs ++ [{ id := db.nextLogId, data := d }],
          nextLogId := db.nextLogId + 1 } := rfl

theorem mkLogData_id (payload : Payload) (now : Nat) :
    (mkLogData payload now)._id = none := rfl

theorem mkLogData_status (payload : Payload) (now : Nat) :
    (mkLogData payload now).processing_status = "queued" := rfl

/-- C7 counterexample: a webhook observation with the terminal status
refunded is processed successfully (the ledger records refunded) yet
the owning Order's cached status is left at pending, because the
order-cache update set of line 939 omits refunded. -/
theorem C7_cex_refunded_not_cached :
    isTerminalSpec (some "refunded") = true ∧
    (processWebhookData (parseWebhookPayload (mkStatusPayload "refunded") 9) 0 9 dbP).1 = none ∧
    (processWebhookData (parseWebhookPayload (mkStatusPayload "refunded") 9) 0 9 dbP).2.orders
      = [orderP] ∧
    ((processWebhookData (parseWebhookPayload (mkStatusPayload "refunded") 9) 0 9 dbP).2.ledger.entries.map
      (fun e => e.data.status)) = [some "refunded"] ∧
    orderP.status = "pending" ∧
    ("pending" : String) ≠ "refunded" := by
  decide

/-- C7 amended: in webhook processing the owning Order's cached status
is refreshed exactly when the observation's status lies in
{completed, failed, cancelled}; for refunded - terminal per the spec -
and for the non-terminal statuses the cached status is unchanged. -/
theorem C7_order_cache_update_set :
    (∀ (parsed : Parsed) (logId now : Nat) (db : DB) (order : Order),
      resolveOrder parsed db.orders = some order →
      validStatusData (statusDataOfParsed parsed order.amount) = true →
      (processWebhookData parsed logId now db).1 = none ∧
      (processWebhookData parsed logId now db).2.orders =
        (if wantsOrderCacheUpdate parsed.status then
          updateFirst (fun o => o.id == order.id)
            (Order.updateStatus (parsed.status.getD "")) db.orders
        else db.orders)) ∧
    wantsOrderCacheUpdate (some "refunded") = false ∧
    orderCacheUpdateSet = ["completed", "failed", "cancelled"] := by
  refine ⟨?_, by decide, rfl⟩
  intro parsed logId now db order hres hv
  have hid := hasOrderIdentifier_of_resolve hres
  obtain ⟨led, hled⟩ := @upsert_ok_of_valid db.ledger now order.id (statusDataOfParsed parsed order.amount) hv
  by_cases hw : wantsOrderCacheUpdate parsed.status = true
  · simp only [processWebhookData, hid, if_true, hres, hled, hw]
    constructor <;> simp
  · have hw' : wantsOrderCacheUpdate parsed.status = false := by
      exact Bool.not_eq_true _ ▸ Bool.of_not_eq_true hw
    simp only [processWebhookData, hid, if_true, hres, hled, hw', Bool.false_eq_true, if_false]
    constructor <;> simp

/-- Witness for C7 at a completed webhook for the concrete store. -/
theorem C7_order_cache_update_set_witness :
    (processWebhookData (parseWebhookPayload (mkStatusPayload "completed") 9) 0 9 dbP).1 = none ∧
    (processWebhookData (parseWebhookPayload (mkStatusPayload "completed") 9) 0 9 dbP).2.orders =
      (if wantsOrderCacheUpdate (parseWebhookPayload (mkStatusPayload "completed") 9).status then
        updateFirst (fun o => o.id == orderP.id)
          (Order.updateStatus ((parseWebhookPayload (mkStatusPayload "completed") 9).status.getD ""))
          dbP.orders
      else dbP.orders) :=
  C7_order_cache_update_set.1 (parseWebhookPayload (mkStatusPayload "completed") 9) 0 9 dbP
    orderP (by decide) (by decide)

/-- C6: a webhook payload that references a custom_order_id matching no
existing order yields a failure response and a delivery record in
failed state carrying the order-not-found reason, while the orders and
the status ledger are untouched. -/
theorem C6_unresolvable_webhook :
    ∀ (db : DB) (payload : Payload) (now : Nat),
      tS (parseWebhookPayload payload now).custom_order_id = true →
      resolveOrder (parseWebhookPayload payload now) db.orders = none →
      (processWebhook db payload now).1.success = false ∧
      (processWebhook db payload now).1.httpStatus = 400 ∧
      (processWebhook db payload now).2.orders = db.orders ∧
      (processWebhook db payload now).2.ledger = db.ledger ∧
      ∃ w, w ∈ (processWebhook db payload now).2.webhookLogs ∧
        w.data.processing_status = "failed" ∧
        w.data.processing_message =
          some (orderNotFoundMsg (parseWebhookPayload payload now)) := by
  intro db payload now h1 hres
  have hid : hasOrderIdentifier (parseWebhookPayload payload now) = true := by
    simp [hasOrderIdentifier, h1]
  have hpd : processWebhookData (parseWebhookPayload payload now) db.nextLogId now
      { db with
          webhookLogs := db.webhookLogs ++ [{ id := db.nextLogId, data := mkLogData payload now }],
          nextLogId := db.nextLogId + 1 } =
      (some (orderNotFoundMsg (parseWebhookPayload payload now)),
       { db with
           webhookLogs := db.webhookLogs ++ [{ id := db.nextLogId, data := mkLogData payload now }],
           nextLogId := db.nextLogId + 1 }) := by
    simp only [processWebhookData, hid, if_true]
    rw [show resolveOrder (parseWebhookPayload payload now)
        ({ db with
            webhookLogs := db.webhookLogs ++ [{ id := db.nextLogId, data := mkLogData payload now }],
            nextLogId := db.nextLogId + 1 } : DB).orders = none from hres]
  simp only [processWebhook, createLog_fst, createLog_snd]
  rw [hpd]
  simp only [mkLogData_id]
  refine ⟨trivial, trivial, trivial, trivial, ?_⟩
  exact ⟨_, List.mem_append_right _ (List.mem_singleton_self _), rfl, rfl⟩

/-- Witness for C6 at a store holding one unrelated order. -/
theorem C6_unresolvable_webhook_witness :
    (processWebhook dbW (mkStatusPayload "completed") 3).1.success = false ∧
    (processWebhook dbW (mkStatusPayload "completed") 3).1.httpStatus = 400 ∧
    (processWebhook dbW (mkStatusPayload "completed") 3).2.orders = dbW.orders ∧
    (processWebhook dbW (mkStatusPayload "completed") 3).2.ledger = dbW.ledger ∧
    ∃ w, w ∈ (processWebhook dbW (mkStatusPayload "completed") 3).2.webhookLogs ∧
      w.data.processing_status = "failed" ∧
      w.data.processing_message =
        some (orderNotFoundMsg (parseWebhookPayload (mkStatusPayload "completed") 3)) :=
  C6_unresolvable_webhook dbW (mkStatusPayload "completed") 3 (by decide) (by decide)

/-- C10: when webhook processing throws after the queued delivery
record was persisted, that record is never transitioned to failed: the
catch block tests webhookLogData._id, never assigned on the plain
object, so the store ends with the original record still queued and a
second, separate record in failed state. -/
theorem C10_queued_record_stays_queued :
    ∀ (db : DB) (payload : Payload) (now : Nat),
      (∀ w ∈ db.webhookLogs, (w.id == db.nextLogId) = false) →
      (processWebhook db payload now).1.success = false →
      ∃ q f, (processWebhook db payload now).2.webhookLogs = db.webhookLogs ++ [q, f] ∧
        q.id = db.nextLogId ∧
        q.data.processing_status = "queued" ∧
        f.id = db.nextLogId + 1 ∧
        f.data.processing_status = "failed" ∧
        f.data.processing_message.isSome = true := by
  intro db payload now hfresh hfail
  rcases hpd : processWebhookData (parseWebhookPayload payload now) db.nextLogId now
      ({ db with
          webhookLogs := db.webhookLogs ++ [{ id := db.nextLogId, data := mkLogData payload now }],
          nextLogId := db.nextLogId + 1 }) with ⟨e?, db2⟩
  rcases e? with _ | msg
  · have hok : (processWebhook db payload now).1.success = true := by
      simp only [processWebhook, createLog_fst, createLog_snd]
      rw [hpd]
    rw [hok] at hfail
    exact absurd hfail (by decide)
  · have hres : processWebhook db payload now =
        ({ success := false, httpStatus := 400, message := "Webhook processing failed" },
         { db2 with
             webhookLogs := db2.webhookLogs ++
               [{ id := db2.nextLogId,
                  data := { mkLogData payload now with
                    processing_status := "failed", processing_message := some msg } }],
             nextLogId := db2.nextLogId + 1 }) := by
      simp only [processWebhook, createLog_fst, createLog_snd]
      rw [hpd]
      simp only [mkLogData_id]
    have heff := processWebhookData_log_effects (parseWebhookPayload payload now)
      db.nextLogId now
      ({ db with
          webhookLogs := db.webhookLogs ++ [{ id := db.nextLogId, data := mkLogData payload now }],
          nextLogId := db.nextLogId + 1 })
    rw [hpd] at heff
    have hnext : db2.nextLogId = db.nextLogId + 1 := heff.1
    rw [hres]
    rcases heff.2 with hA | ⟨o, hB⟩
    · have hA' : db2.webhookLogs =
          db.webhookLogs ++ [{ id := db.nextLogId, data := mkLogData payload now }] := hA
      refine ⟨{ id := db.nextLogId, data := mkLogData payload now },
        { id := db2.nextLogId,
          data := { mkLogData payload now with
            processing_status := "failed", processing_message := some msg } },
        ?_, rfl, mkLogData_status payload now, hnext, rfl, rfl⟩
      rw [show ({ db2 with
          webhookLogs := db2.webhookLogs ++
            [{ id := db2.nextLogId,
               data := { mkLogData payload now with
                 processing_status := "failed", processing_message := some msg } }],
          nextLogId := db2.nextLogId + 1 } : DB).webhookLogs =
        db2.webhookLogs ++
          [{ id := db2.nextLogId,
             data := { mkLogData payload now with
               processing_status := "failed", processing_message := some msg } }] from rfl]
      rw [hA']
      simp
    · have hB' : db2.webhookLogs =
          updateFirst (fun w => w.id == db.nextLogId) (linkOrder o)
            (db.webhookLogs ++ [{ id := db.nextLogId, data := mkLogData payload now }]) := hB
      have hfind : db.webhookLogs.find? (fun w => w.id == db.nextLogId) = none :=
        List.find?_eq_none.mpr (fun x hx => by simp [hfresh x hx])
      rw [updateFirst_append_of_none _ hfind] at hB'
      have hone : updateFirst (fun w => w.id == db.nextLogId) (linkOrder o)
          [{ id := db.nextLogId, data := mkLogData payload now }] =
          [linkOrder o { id := db.nextLogId, data := mkLogData payload now }] := by
        simp [updateFirst]
      rw [hone] at hB'
      refine ⟨linkOrder o { id := db.nextLogId, data := mkLogData payload now },
        { id := db2.nextLogId,
          data := { mkLogData payload now with
            processing_status := "failed", processing_message := some msg } },
        ?_, rfl, mkLogData_status payload now, hnext, rfl, rfl⟩
      rw [show ({ db2 with
          webhookLogs := db2.webhookLogs ++
            [{ id := db2.nextLogId,
               data := { mkLogData payload now with
                 processing_status := "failed", processing_message := some msg } }],
          nextLogId := db2.nextLogId + 1 } : DB).webhookLogs =
        db2.webhookLogs ++
          [{ id := db2.nextLogId,
             data := { mkLogData payload now with
               processing_status := "failed", processing_message := some msg } }] from rfl]
      rw [hB']
      simp

/-- Witness for C10 at the empty store and an unresolvable payload. -/
theorem C10_queued_record_stays_queued_witness :
    ∃ q f, (processWebhook { orders := [], ledger := emptyLedger, webhookLogs := [], nextLogId := 0 }
        (mkStatusPayload "completed") 3).2.webhookLogs = [] ++ [q, f] ∧
      q.id = 0 ∧
      q.data.processing_status = "queued" ∧
      f.id = 0 + 1 ∧
      f.data.processing_status = "failed" ∧
      f.data.processing_message.isSome = true :=
  C10_queued_record_stays_queued
    { orders := [], ledger := emptyLedger, webhookLogs := [], nextLogId := 0 }
    (mkStatusPayload "completed") 3
    (fun w hw => absurd hw (List.not_mem_nil w)) (by decide)

end Edviron
